import Mathlib

/-!
Verification of the Phoenix-SmartLocatorAI locator-synthesis core.

The definitions below are a shallow embedding of `dom_scanner.py` (element
extraction, CSS/XPath/role locator builders, dynamic/duplicate analysis, the
stability scorer and the locator pipeline) and of
`src/phoenix_smartlocatorai/page_object_exporter.py` (best-per-name winner
selection).  Python strings stand for themselves; a missing/None attribute and
the empty string are both modelled as `""`, matching the Python code, which
only ever tests these fields for truthiness (the extractor drops empty fields
from its records, so downstream `.get` calls return `None` exactly when the
embedded field is `""`).  Python dicts of `data-*` attributes are association
lists.  The regular expressions used by the source are implemented as
executable character-list matchers; each one is deterministic because the
bordering character classes of the patterns are disjoint, so no backtracking
choice can change the outcome of a search.
-/

namespace Phoenix

/-- Does `pat` occur at the start of `s`? (character-list level). -/
def listStarts : List Char → List Char → Bool
  | [], _ => true
  | _ :: _, [] => false
  | p :: ps, c :: cs => p == c && listStarts ps cs

/-- Does `pat` occur anywhere inside `s`? (Python `in` on strings). -/
def listHasSub (pat : List Char) : List Char → Bool
  | [] => pat.isEmpty
  | c :: cs => listStarts pat (c :: cs) || listHasSub pat cs

/-- Python `s.startswith(pat)`. -/
def strStarts (s pat : String) : Bool := listStarts pat.data s.data

/-- Python `s.endswith(pat)`. -/
def strEnds (s pat : String) : Bool := listStarts pat.data.reverse s.data.reverse

/-- Python `pat in s`. -/
def strContains (s pat : String) : Bool := listHasSub pat.data s.data

/-- Python `s.lower()` (ASCII as used here). -/
def strToLower (s : String) : String := ⟨s.data.map Char.toLower⟩

/-- Python `s.strip()`. -/
def pyStrip (s : String) : String :=
  ⟨((s.data.dropWhile Char.isWhitespace).reverse.dropWhile Char.isWhitespace).reverse⟩

/-- Maximal groups of characters satisfying `p`, dropping separator runs.
`groupsBy p [] s` is Python `re.split` on the complement of `p` with empty
parts discarded. -/
def groupsBy (p : Char → Bool) (acc : List Char) : List Char → List (List Char)
  | [] => if acc.isEmpty then [] else [acc.reverse]
  | c :: cs =>
    if p c then groupsBy p (c :: acc) cs
    else if acc.isEmpty then groupsBy p [] cs
    else acc.reverse :: groupsBy p [] cs

/-- Python `s.split()` (split on whitespace runs, no empty parts). -/
def pySplitWords (s : String) : List String :=
  (groupsBy (fun c => !c.isWhitespace) [] s.data).map (fun g => String.mk g)

/-- `_normalize_text`: collapse whitespace runs to single spaces and strip,
i.e. `re.sub(r"\s+", " ", text).strip()`. -/
def _normalize_text (s : String) : String :=
  String.intercalate " " (pySplitWords s)

/-- Python `str.capitalize()`: first character upper-cased, rest lower-cased. -/
def pyCapitalize (g : List Char) : List Char :=
  match g with
  | [] => []
  | c :: cs => c.toUpper :: cs.map Char.toLower

/-- `_to_camel_case`: split on non-alphanumeric runs, capitalize each
non-empty part, join. -/
def _to_camel_case (s : String) : String :=
  String.join ((groupsBy Char.isAlphanum [] s.data).map (fun g => String.mk (pyCapitalize g)))

/-- One extracted DOM element record (`_element_to_record` output).  Field
`classAttr` is the space-joined `class` attribute (`class` is reserved in
Lean); `data` holds the `data-*` attributes; `""`/`[]` mean "absent". -/
structure ElementRecord where
  tag : String := ""
  id : String := ""
  name : String := ""
  classAttr : String := ""
  text : String := ""
  ariaLabel : String := ""
  role : String := ""
  href : String := ""
  typeAttr : String := ""
  value : String := ""
  placeholder : String := ""
  labelText : String := ""
  data : List (String × String) := []
  deriving DecidableEq

/-- Python `key in data` for the `data-*` attribute dict. -/
def dataHas (d : List (String × String)) (k : String) : Bool :=
  d.any (fun p => p.1 == k)

/-- Python `data.get(key)` (with `""` for a missing key). -/
def dataGet (d : List (String × String)) (k : String) : String :=
  match d.find? (fun p => p.1 == k) with
  | some p => p.2
  | none => ""

/-- The `id_counts` dict built by `generate_locators_from_elements`: only
truthy ids are counted, so the empty key is never present. -/
def build_id_counts (elements : List ElementRecord) (v : String) : Nat :=
  if v = "" then 0 else elements.countP (fun e => e.id == v)

/-- The `name_counts` dict built by `generate_locators_from_elements`. -/
def build_name_counts (elements : List ElementRecord) (v : String) : Nat :=
  if v = "" then 0 else elements.countP (fun e => e.name == v)

/-- Python `value.replace("'", "\\'")` used when interpolating attribute
values and accessible names into selector strings. -/
def escQuote (s : String) : String :=
  ⟨(s.data.map (fun c => if c == Char.ofNat 39 then [Char.ofNat 92, Char.ofNat 39] else [c])).flatten⟩

/-- Python `classes.split(" ")[0]`: everything before the first space. -/
def firstClassToken (s : String) : String := ⟨s.data.takeWhile (fun c => !(c == ' '))⟩

/-- Result dict of the selector builders: keys `selector`/`stability`/`type`. -/
structure SelectorInfo where
  selector : String
  stability : String
  type : String
  deriving DecidableEq

/-- `_css_selector_for`: unique id, then `data-test`, then first class token,
then bare tag.  A non-unique id falls through. -/
def _css_selector_for (elem : ElementRecord) (id_counts : String → Nat) : SelectorInfo :=
  if elem.id ≠ "" ∧ id_counts elem.id = 1 then
    { selector := "#" ++ elem.id, stability := "High", type := "CSS Selector" }
  else if dataHas elem.data "data-test" = true then
    { selector := "[data-test='" ++ escQuote (dataGet elem.data "data-test") ++ "']",
      stability := "High", type := "CSS Selector" }
  else if elem.classAttr ≠ "" ∧ firstClassToken elem.classAttr ≠ "" then
    { selector := "[class*='" ++ escQuote (firstClassToken elem.classAttr) ++ "']",
      stability := "Medium", type := "CSS Selector" }
  else
    { selector := if elem.tag ≠ "" then elem.tag else "*",
      stability := "Low", type := "CSS Selector" }

/-- The approximate identity test the XPath fallback uses against the
reconstructed soup: compare id, class string and normalized text.  The soup
element `el` is the re-parsed fragment of some pipeline element, whose class
string and text come back whitespace-normalized. -/
def _soup_elem_matches (el elem : ElementRecord) : Bool :=
  el.id == elem.id &&
  ((el.classAttr != "") && (elem.classAttr != "") && (_normalize_text el.classAttr == elem.classAttr)) &&
  (_normalize_text el.text == elem.text)

/-- The `index`/`count` loop of `_xpath_selector_for`: 1-based position of the
first same-tag soup element matching `elem`, defaulting to 1. -/
def _xpath_index_go (elem : ElementRecord) (count : Nat) : List ElementRecord → Nat
  | [] => 1
  | el :: rest =>
    if _soup_elem_matches el elem = true then count + 1 else _xpath_index_go elem (count + 1) rest

def _xpath_index (elem : ElementRecord) (sameTag : List ElementRecord) : Nat :=
  _xpath_index_go elem 0 sameTag

/-- `_xpath_selector_for`: exact-text XPath for short, quote-free, single-line
text, else a positional XPath indexed among same-tag elements.  The soup the
source rebuilds from the element list (used only through `find_all(tag)`) is
modelled by the element list itself filtered by tag, which is exactly the
document-order same-tag sequence the reconstruction yields. -/
def _xpath_selector_for (elem : ElementRecord) (soupElements : List ElementRecord) : SelectorInfo :=
  let text := pyStrip elem.text
  if elem.tag ≠ "" ∧ text ≠ "" ∧ text.length ≤ 60 ∧
      strContains text "\n" = false ∧ strContains text "'" = false then
    { selector := "//" ++ elem.tag ++ "[text()='" ++ text ++ "']",
      stability := "Medium", type := "XPath" }
  else if elem.tag ≠ "" then
    { selector := "//" ++ elem.tag ++ "[" ++
        toString (_xpath_index elem (soupElements.filter (fun x => x.tag == elem.tag))) ++ "]",
      stability := "Low", type := "XPath" }
  else
    { selector := "//*", stability := "Low", type := "XPath" }

/-- `_playwright_role_selector_for`: prefer `getByRole` when a role can be
inferred and a name resolves, else `getByText` for links/buttons with text. -/
def _playwright_role_selector_for (elem : ElementRecord) : Option SelectorInfo :=
  let text := pyStrip elem.text
  let inferred_role :=
    if elem.role ≠ "" then elem.role
    else if elem.tag = "a" then "link"
    else if elem.tag = "button" then "button"
    else if elem.tag = "input" ∧ (elem.typeAttr = "" ∨ elem.typeAttr = "text" ∨
        elem.typeAttr = "search" ∨ elem.typeAttr = "email" ∨ elem.typeAttr = "password") then "textbox"
    else ""
  let name := if elem.ariaLabel ≠ "" then pyStrip elem.ariaLabel else text
  if inferred_role ≠ "" ∧ name ≠ "" then
    some { selector := "page.getByRole('" ++ inferred_role ++ "', \x7b name: '" ++ escQuote name ++ "' \x7d)",
           stability := "High", type := "Role Selector" }
  else if (elem.tag = "a" ∨ elem.tag = "button") ∧ text ≠ "" then
    some { selector := "page.getByText('" ++ escQuote text ++ "')",
           stability := "Medium", type := "Text Selector" }
  else none

/-- `_automation_tool_for`. -/
def _automation_tool_for (locator_type : String) (_locator_value : String) : String :=
  let lt := strToLower locator_type
  if strContains lt "role" = true ∨ strContains lt "text selector" = true then "Playwright"
  else if lt = "css selector" then "Both"
  else if lt = "xpath" then "Selenium"
  else "Both"

/-- Python `value.replace("\\", "\\\\").replace("\"", "\\\"")`. -/
def escDq (s : String) : String :=
  let bs := Char.ofNat 92
  let dq := Char.ofNat 34
  let once := (s.data.map (fun c => if c == bs then [bs, bs] else [c])).flatten
  ⟨(once.map (fun c => if c == dq then [bs, dq] else [c])).flatten⟩

/-- `_generate_code_snippets`: ready-to-copy Playwright/Selenium statements. -/
def _generate_code_snippets (locator_type locator_value automation_tool : String) :
    List (String × String) :=
  let lt := strToLower locator_type
  let pw :=
    if automation_tool = "Playwright" ∨ automation_tool = "Both" then
      if strContains lt "role" = true then [("playwright_code", locator_value ++ ".click()")]
      else if strContains lt "text selector" = true then [("playwright_code", locator_value ++ ".click()")]
      else if lt = "css selector" then
        [("playwright_code", "page.locator(\"" ++ escDq locator_value ++ "\").click()")]
      else if lt = "xpath" then
        [("playwright_code", "page.locator(\"xpath=" ++ escDq locator_value ++ "\").click()")]
      else []
    else []
  let se :=
    if automation_tool = "Selenium" ∨ automation_tool = "Both" then
      if lt = "css selector" then
        [("selenium_code", "driver.find_element(By.CSS_SELECTOR, \"" ++ escDq locator_value ++ "\").click()")]
      else if lt = "xpath" then
        [("selenium_code", "driver.find_element(By.XPATH, \"" ++ escDq locator_value ++ "\").click()")]
      else []
    else []
  pw ++ se

/-- `_label_from_score`. -/
def _label_from_score (score : Nat) : String :=
  if 8 ≤ score then "High" else if 5 ≤ score then "Medium" else "Low"

/-- Matcher for the pattern `//[a-zA-Z]+\[\d+\]` anchored at the head of the
list, returning the unmatched tail on success.  The character classes at
every quantifier border are disjoint, so the regex match is this
deterministic scan. -/
def posConsume (l : List Char) : Option (List Char) :=
  match l with
  | a :: b :: rest =>
    if a == '/' && b == '/' then
      match rest.takeWhile Char.isAlpha, rest.dropWhile Char.isAlpha with
      | [], _ => none
      | _ :: _, c :: r2 =>
        if c == '[' then
          match r2.takeWhile Char.isDigit, r2.dropWhile Char.isDigit with
          | [], _ => none
          | _ :: _, d :: r4 => if d == ']' then some r4 else none
          | _ :: _, [] => none
        else none
      | _ :: _, [] => none
    else none
  | _ => none

/-- The pattern `//[a-zA-Z]+\[\d+\]` matches at the head (trailing characters
unconstrained). -/
def posMatchAt (l : List Char) : Bool := (posConsume l).isSome

/-- Python `re.search(r"//[a-zA-Z]+\[\d+\]", val)`: the pattern matches at
some position. -/
def posSearch : List Char → Bool
  | [] => false
  | c :: cs => posMatchAt (c :: cs) || posSearch cs

/-- `_compute_stability_score`: numeric stability score in `[1, 10]`. -/
def _compute_stability_score (elem : ElementRecord) (locator_type locator_value : String)
    (id_counts : String → Nat) : Nat :=
  let lt := strToLower locator_type
  let val := locator_value
  let elem_id := elem.id
  let data := elem.data
  let role := elem.role
  let name := pyStrip (if elem.ariaLabel ≠ "" then elem.ariaLabel else elem.text)
  let classes := pyStrip elem.classAttr
  let score :=
    if elem_id ≠ "" ∧ id_counts elem_id = 1 ∧ lt = "css selector" ∧ strStarts val "#" = true then
      10
    else if (dataHas data "data-testid" = true ∨ dataHas data "data-testid" = true ∨
        dataHas data "data-test" = true) ∧ lt = "css selector" then
      9
    else if strContains lt "role selector" = true ∧ role ≠ "" ∧ name ≠ "" then
      9
    else if lt = "xpath" then
      let s1 := if strContains val "text()=" = true ∨ strContains val "text()='" = true then 6 else 5
      if posSearch val.data = true then min s1 2 else s1
    else if lt = "css selector" then
      if strStarts val "[class*" = true ∨ (classes ≠ "" ∧ elem_id = "" ∧ data = []) then 6
      else if val = elem.tag ∨ val = "*" then 3
      else 5
    else 5
  let score2 := if strContains lt "text selector" = true then 6 else score
  let score3 :=
    if elem_id = "" ∧ data = [] ∧ role = "" ∧ elem.name = "" ∧ elem.ariaLabel = "" then
      max 1 (score2 - 1)
    else score2
  max 1 (min 10 score3)

/-- The tag-specific suffix table of `_guess_custom_name`. -/
def _name_suffix (tag : String) : String :=
  if tag = "a" then "Link"
  else if tag = "button" then "Button"
  else if tag = "input" then "Input"
  else if tag = "select" then "Select"
  else if tag = "textarea" then "Textarea"
  else "Element"

/-- The camel-cased base token of `_guess_custom_name` (visible text, label,
aria, placeholder, `data-test`, id, first class, tag — first truthy wins). -/
def _name_base (elem : ElementRecord) : String :=
  let text := pyStrip elem.text
  let aria := pyStrip elem.ariaLabel
  let label_text := pyStrip elem.labelText
  let placeholder := pyStrip elem.placeholder
  let visible_name :=
    if (elem.tag = "button" ∨ elem.tag = "a") ∧ text ≠ "" then text
    else if label_text ≠ "" then label_text
    else if aria ≠ "" then aria
    else if placeholder ≠ "" ∧ (elem.tag = "input" ∨ elem.tag = "textarea") then placeholder
    else ""
  if visible_name ≠ "" then _to_camel_case visible_name
  else if dataHas elem.data "data-test" = true then _to_camel_case (dataGet elem.data "data-test")
  else if elem.id ≠ "" then _to_camel_case elem.id
  else if elem.classAttr ≠ "" then _to_camel_case (firstClassToken elem.classAttr)
  else _to_camel_case elem.tag

/-- `_guess_custom_name`: base plus suffix, with the suffix suppressed when
the base already ends with it. -/
def _guess_custom_name (elem : ElementRecord) : String :=
  if strEnds (_name_base elem) (_name_suffix elem.tag) = true then _name_base elem
  else _name_base elem ++ _name_suffix elem.tag

/-- `[0-9a-fA-F]`. -/
def isHexDigit (c : Char) : Bool :=
  c.isDigit || ('a' ≤ c && c ≤ 'f') || ('A' ≤ c && c ≤ 'F')

/-- Consume exactly `n` hex digits. -/
def hexRun : Nat → List Char → Option (List Char)
  | 0, rest => some rest
  | _ + 1, [] => none
  | n + 1, c :: rest => if isHexDigit c = true then hexRun n rest else none

/-- Consume a literal dash. -/
def dashThen : List Char → Option (List Char)
  | c :: rest => if c == '-' then some rest else none
  | [] => none

/-- Anchored full match of the UUID regex
`^hex{8}-hex{4}-hex{4}-hex{4}-hex{12}$` (`uuid_regex.match` on a stripped
value, so the `$` is a true end anchor). -/
def uuidMatch (s : String) : Bool :=
  match (((((((((hexRun 8 s.data).bind dashThen).bind (hexRun 4)).bind dashThen).bind
      (hexRun 4)).bind dashThen).bind (hexRun 4)).bind dashThen).bind (hexRun 12)) with
  | some [] => true
  | _ => false

/-- Five consecutive digits at the head. -/
def fiveDigitsAt : List Char → Bool
  | a :: b :: c :: d :: e :: _ =>
    a.isDigit && b.isDigit && c.isDigit && d.isDigit && e.isDigit
  | _ => false

/-- `re.search(r"\d{5,}", v)`. -/
def longDigitsSearch : List Char → Bool
  | [] => false
  | c :: cs => fiveDigitsAt (c :: cs) || longDigitsSearch cs

/-- `[\-_/]`. -/
def isSepChar (c : Char) : Bool := c == '-' || c == '_' || c == '/'

/-- Consume an optional separator (the separator and digit classes are
disjoint, so the greedy optional is deterministic). -/
def skipOptSep : List Char → List Char
  | c :: rest => if isSepChar c = true then rest else c :: rest
  | [] => []

/-- Consume exactly two digits. -/
def twoDigitsThen : List Char → Option (List Char)
  | a :: b :: rest => if a.isDigit && b.isDigit then some rest else none
  | _ => none

/-- The timestamp regex `20\d{2}[\-_/]?\d{2}[\-_/]?\d{2}` matching at the
head. -/
def tsMatchAt (l : List Char) : Bool :=
  match l with
  | a :: b :: rest =>
    a == '2' && b == '0' &&
    (match twoDigitsThen rest with
     | none => false
     | some r1 =>
       match twoDigitsThen (skipOptSep r1) with
       | none => false
       | some r2 =>
         match twoDigitsThen (skipOptSep r2) with
         | some _ => true
         | none => false)
  | _ => false

/-- `timestamp_like_regex.search`. -/
def tsSearch : List Char → Bool
  | [] => false
  | c :: cs => tsMatchAt (c :: cs) || tsSearch cs

/-- The framework-hash regex `[A-Za-z]+\d+[A-Za-z\d]{3,}` matching at the
head: a maximal alpha run, one digit (taking a single digit is the optimal
backtracking choice since the tail class also accepts digits), then at least
three alphanumerics. -/
def mixedMatchAt (l : List Char) : Bool :=
  match l.dropWhile Char.isAlpha with
  | c :: r2 =>
    !(l.takeWhile Char.isAlpha).isEmpty && c.isDigit &&
      decide (3 ≤ (r2.takeWhile Char.isAlphanum).length)
  | [] => false

/-- `re.search(r"[A-Za-z]+\d+[A-Za-z\d]{3,}", v)`. -/
def mixedSearch : List Char → Bool
  | [] => false
  | c :: cs => mixedMatchAt (c :: cs) || mixedSearch cs

/-- `looks_dynamic` from `analyze_element_warnings`. -/
def looks_dynamic (value : String) : Bool :=
  let v := pyStrip value
  if v = "" then false
  else uuidMatch v || longDigitsSearch v.data || tsSearch v.data || mixedSearch v.data

/-- `analyze_element_warnings`: `(is_dynamic, is_duplicate, warnings)`, with
warnings accumulated in the source's fixed check order. -/
def analyze_element_warnings (id_counts name_counts : String → Nat) (elem : ElementRecord) :
    Bool × Bool × List String :=
  let eid := elem.id
  let ename := elem.name
  let eclass := elem.classAttr
  let dupId := (eid != "") && decide (1 < id_counts eid)
  let dupName := (ename != "") && decide (1 < name_counts ename)
  let dynId := (eid != "") && looks_dynamic eid
  let dynClass := (eclass != "") && (pySplitWords eclass).any looks_dynamic
  let dynName := (ename != "") && looks_dynamic ename
  let warnings :=
    (if dupId = true then ["Duplicate id detected"] else []) ++
    (if dupName = true then ["Duplicate name detected"] else []) ++
    (if dynId = true then ["id appears dynamic (contains UUID/long digits/timestamp)"] else []) ++
    (if dynClass = true then ["class token appears dynamic"] else []) ++
    (if dynName = true then ["name appears dynamic"] else [])
  (dynId || dynClass || dynName, dupId || dupName, warnings)

/-- One output dict of `generate_locators_from_elements`.  `code` gathers the
optional `playwright_code`/`selenium_code` keys. -/
structure LocatorEntry where
  custom_name : String
  locator_type : String
  locator_value : String
  stability : String
  automation_tool : String
  dynamic : Bool
  duplicate : Bool
  warnings : List String
  stability_score : Nat
  code : List (String × String)
  deriving DecidableEq

/-- The CSS entry built by the pipeline loop for one element (scored, with the
builder's stability hint overwritten by the label of the score). -/
def css_entry (elements : List ElementRecord) (e : ElementRecord) : LocatorEntry :=
  let id_counts := build_id_counts elements
  let info := _css_selector_for e id_counts
  let score := _compute_stability_score e info.type info.selector id_counts
  let adw := analyze_element_warnings id_counts (build_name_counts elements) e
  let tool := _automation_tool_for info.type info.selector
  { custom_name := _guess_custom_name e,
    locator_type := info.type, locator_value := info.selector,
    stability := _label_from_score score, automation_tool := tool,
    dynamic := adw.1, duplicate := adw.2.1, warnings := adw.2.2,
    stability_score := score,
    code := _generate_code_snippets info.type info.selector tool }

/-- The XPath entry built by the pipeline loop for one element. -/
def xpath_entry (elements : List ElementRecord) (e : ElementRecord) : LocatorEntry :=
  let id_counts := build_id_counts elements
  let info := _xpath_selector_for e elements
  let score := _compute_stability_score e info.type info.selector id_counts
  let adw := analyze_element_warnings id_counts (build_name_counts elements) e
  let tool := _automation_tool_for info.type info.selector
  { custom_name := _guess_custom_name e,
    locator_type := info.type, locator_value := info.selector,
    stability := _label_from_score score, automation_tool := tool,
    dynamic := adw.1, duplicate := adw.2.1, warnings := adw.2.2,
    stability_score := score,
    code := _generate_code_snippets info.type info.selector tool }

/-- The optional Playwright role/text entry built by the pipeline loop. -/
def pw_entry (elements : List ElementRecord) (e : ElementRecord) (info : SelectorInfo) :
    LocatorEntry :=
  let id_counts := build_id_counts elements
  let score := _compute_stability_score e info.type info.selector id_counts
  let adw := analyze_element_warnings id_counts (build_name_counts elements) e
  let tool := _automation_tool_for info.type info.selector
  { custom_name := _guess_custom_name e,
    locator_type := info.type, locator_value := info.selector,
    stability := _label_from_score score, automation_tool := tool,
    dynamic := adw.1, duplicate := adw.2.1, warnings := adw.2.2,
    stability_score := score,
    code := _generate_code_snippets info.type info.selector tool }

/-- The body of the per-element loop of `generate_locators_from_elements`:
CSS entry, XPath entry, then the optional role/text entry. -/
def locator_entries_for (elements : List ElementRecord) (e : ElementRecord) : List LocatorEntry :=
  [css_entry elements e, xpath_entry elements e] ++
  (match _playwright_role_selector_for e with
   | some info => [pw_entry elements e info]
   | none => [])

/-- `generate_locators_from_elements`. -/
def generate_locators_from_elements (elements : List ElementRecord) : List LocatorEntry :=
  (elements.map (locator_entries_for elements)).flatten

/-- A parsed HTML element node, as far as the extractor consults it.  The
document is modelled as the flat list of its element nodes in document order;
`innerText` is the node's rendered text.  (The one tree-shaped lookup in
`_element_to_record`, the enclosing-`label` fallback, needs nesting
information this flat model does not carry and is represented by the
`label[for=id]` lookup alone; no claim involves labels.) -/
structure HtmlNode where
  tag : String := ""
  attrs : List (String × String) := []
  innerText : String := ""
  deriving DecidableEq

/-- `attrs.get(k) or ""`. -/
def attrOf (n : HtmlNode) (k : String) : String := dataGet n.attrs k

/-- `_element_to_record`: project a node to the element record, normalizing
text and collecting `data-*` attributes. -/
def _element_to_record (doc : List HtmlNode) (el : HtmlNode) : ElementRecord :=
  let label_text :=
    if (el.tag = "input" ∨ el.tag = "select" ∨ el.tag = "textarea") ∧ attrOf el "id" ≠ "" then
      match doc.find? (fun m => (m.tag == "label") && (attrOf m "for" == attrOf el "id")) with
      | some lbl => _normalize_text lbl.innerText
      | none => ""
    else ""
  { tag := el.tag,
    id := attrOf el "id",
    name := attrOf el "name",
    classAttr := attrOf el "class",
    text := if el.tag = "input" then _normalize_text (attrOf el "value")
            else _normalize_text el.innerText,
    ariaLabel := attrOf el "aria-label",
    role := attrOf el "role",
    href := if el.tag = "a" then attrOf el "href" else "",
    typeAttr := if el.tag = "input" then attrOf el "type" else "",
    value := if el.tag = "input" then attrOf el "value" else "",
    placeholder := if el.tag = "input" ∨ el.tag = "textarea" ∨ el.tag = "select" then
        attrOf el "placeholder"
      else "",
    labelText := label_text,
    data := el.attrs.filter (fun p => strStarts p.1 "data-" = true) }

def INTERACTABLE_TAGS : List String := ["a", "button", "input", "select", "textarea"]

/-- `extract_interactable_elements`: for each interactable tag, all same-tag
nodes in document order.  (The source iterates a Python set, whose order is
unspecified; the fixed list order here is one such order.) -/
def extract_interactable_elements (doc : List HtmlNode) : List ElementRecord :=
  (INTERACTABLE_TAGS.map
    (fun t => (doc.filter (fun el => el.tag == t)).map (_element_to_record doc))).flatten

/-- `_prefer_order_playwright` (page_object_exporter). -/
def _prefer_order_playwright (locator_type : String) : Nat :=
  if locator_type = "Role Selector" then 0
  else if locator_type = "CSS Selector" then 1
  else if locator_type = "Text Selector" then 2
  else if locator_type = "XPath" then 3
  else 9

/-- `_prefer_order_selenium` (page_object_exporter). -/
def _prefer_order_selenium (locator_type : String) : Nat :=
  if locator_type = "CSS Selector" then 0
  else if locator_type = "XPath" then 1
  else 9

/-- The type preference order actually consulted for a framework (the
source's `else` branch uses the Selenium order). -/
def _prefer_order (framework locator_type : String) : Nat :=
  if framework = "playwright" then _prefer_order_playwright locator_type
  else _prefer_order_selenium locator_type

/-- `loc.get("custom_name") or "Element"`. -/
def entry_name (loc : LocatorEntry) : String :=
  if loc.custom_name ≠ "" then loc.custom_name else "Element"

/-- A candidate passes the framework filter (the contrapositive of the two
`continue` guards of `_select_best_per_name`). -/
def compatible (framework : String) (loc : LocatorEntry) : Bool :=
  if framework = "playwright" then
    (loc.automation_tool == "Playwright") || (loc.automation_tool == "Both")
  else if framework = "selenium" then
    (loc.automation_tool == "Selenium") || (loc.automation_tool == "Both")
  else true

/-- `best.get(name)` on the insertion-ordered dict, as an association list. -/
def alistLookup : List (String × LocatorEntry) → String → Option LocatorEntry
  | [], _ => none
  | p :: t, k => if p.1 = k then some p.2 else alistLookup t k

/-- `best[name] = loc` when the key is already present (dict update keeps the
entry's position). -/
def alistUpdate (l : List (String × LocatorEntry)) (k : String) (v : LocatorEntry) :
    List (String × LocatorEntry) :=
  l.map (fun p => if p.1 = k then (p.1, v) else p)

/-- The loop body of `_select_best_per_name`. -/
def best_step (framework : String) (best : List (String × LocatorEntry)) (loc : LocatorEntry) :
    List (String × LocatorEntry) :=
  if compatible framework loc = false then best
  else
    match alistLookup best (entry_name loc) with
    | none => best ++ [(entry_name loc, loc)]
    | some curr =>
      if curr.stability_score < loc.stability_score then
        alistUpdate best (entry_name loc) loc
      else if loc.stability_score = curr.stability_score ∧
          _prefer_order framework loc.locator_type < _prefer_order framework curr.locator_type then
        alistUpdate best (entry_name loc) loc
      else best

/-- `_select_best_per_name` (page_object_exporter). -/
def _select_best_per_name (locators : List LocatorEntry) (framework : String) :
    List (String × LocatorEntry) :=
  locators.foldl (best_step framework) []

/-! ### Scenario documents -/

/-- `<button id="login-btn">Login</button>` as the whole document. -/
def loginDoc : List HtmlNode :=
  [{ tag := "button", attrs := [("id", "login-btn")], innerText := "Login" }]

/-- `<a href="/contact">Contact Us</a>` as the whole document. -/
def contactDoc : List HtmlNode :=
  [{ tag := "a", attrs := [("href", "/contact")], innerText := "Contact Us" }]

/-- A document whose only elements are two `<div id="card">`. -/
def twoDivDoc : List HtmlNode :=
  [{ tag := "div", attrs := [("id", "card")], innerText := "First" },
   { tag := "div", attrs := [("id", "card")], innerText := "Second" }]

/-- A document with two interactable elements sharing `id="card"`. -/
def twoButtonCardDoc : List HtmlNode :=
  [{ tag := "button", attrs := [("id", "card")], innerText := "Pay" },
   { tag := "button", attrs := [("id", "card")], innerText := "Buy" }]

/-! ### Basic pipeline lemmas -/

lemma mem_generate_iff {elements : List ElementRecord} {c : LocatorEntry} :
    c ∈ generate_locators_from_elements elements ↔
      ∃ e ∈ elements, c ∈ locator_entries_for elements e := by
  simp [generate_locators_from_elements]

lemma entries_cases {elements : List ElementRecord} {e : ElementRecord} {c : LocatorEntry}
    (h : c ∈ locator_entries_for elements e) :
    c = css_entry elements e ∨ c = xpath_entry elements e ∨
      ∃ info, _playwright_role_selector_for e = some info ∧ c = pw_entry elements e info := by
  unfold locator_entries_for at h
  cases hpw : _playwright_role_selector_for e with
  | none => rw [hpw] at h; simp at h; tauto
  | some info => rw [hpw] at h; simp at h; tauto

lemma css_entry_mem {elements : List ElementRecord} {e : ElementRecord} (he : e ∈ elements) :
    css_entry elements e ∈ generate_locators_from_elements elements :=
  mem_generate_iff.mpr ⟨e, he, by unfold locator_entries_for; simp⟩

lemma xpath_entry_mem {elements : List ElementRecord} {e : ElementRecord} (he : e ∈ elements) :
    xpath_entry elements e ∈ generate_locators_from_elements elements :=
  mem_generate_iff.mpr ⟨e, he, by unfold locator_entries_for; simp⟩

lemma entry_stability_label {elements : List ElementRecord} {e : ElementRecord} {c : LocatorEntry}
    (h : c ∈ locator_entries_for elements e) :
    c.stability = _label_from_score c.stability_score := by
  rcases entries_cases h with h | h | ⟨info, _, h⟩ <;> subst h <;> rfl

lemma label_high_iff (n : Nat) : _label_from_score n = "High" ↔ 8 ≤ n := by
  unfold _label_from_score
  split_ifs with h1 h2
  · simpa using h1
  · exact ⟨fun h => absurd h (by decide), fun h => absurd h h1⟩
  · exact ⟨fun h => absurd h (by decide), fun h => absurd h h1⟩

lemma label_medium_iff (n : Nat) : _label_from_score n = "Medium" ↔ 5 ≤ n ∧ n < 8 := by
  unfold _label_from_score
  split_ifs with h1 h2
  · exact ⟨fun h => absurd h (by decide), fun h => absurd h1 (by omega)⟩
  · exact ⟨fun _ => ⟨h2, by omega⟩, fun _ => rfl⟩
  · exact ⟨fun h => absurd h (by decide), fun h => absurd h.1 h2⟩

lemma label_low_iff (n : Nat) : _label_from_score n = "Low" ↔ n < 5 := by
  unfold _label_from_score
  split_ifs with h1 h2
  · exact ⟨fun h => absurd h (by decide), fun h => absurd h1 (by omega)⟩
  · exact ⟨fun h => absurd h (by decide), fun h => absurd h2 (by omega)⟩
  · exact ⟨fun _ => by omega, fun _ => rfl⟩

/-- C2: for every candidate produced by the pipeline, the stability label is
determined by the score alone: score ≥ 8 iff High, 5 ≤ score ≤ 7 iff Medium,
score ≤ 4 iff Low. -/
theorem score_label_consistency (elements : List ElementRecord) (c : LocatorEntry)
    (hc : c ∈ generate_locators_from_elements elements) :
    (8 ≤ c.stability_score ↔ c.stability = "High") ∧
    ((5 ≤ c.stability_score ∧ c.stability_score ≤ 7) ↔ c.stability = "Medium") ∧
    (c.stability_score ≤ 4 ↔ c.stability = "Low") := by
  rcases mem_generate_iff.mp hc with ⟨e, _, hmem⟩
  rw [entry_stability_label hmem, label_high_iff, label_medium_iff, label_low_iff]
  omega

/-- C2 witness: the consistency instantiated at the login-button document's
CSS candidate. -/
theorem score_label_consistency_witness :
    8 ≤ (css_entry (extract_interactable_elements loginDoc)
        { tag := "button", id := "login-btn", text := "Login" }).stability_score ↔
      (css_entry (extract_interactable_elements loginDoc)
        { tag := "button", id := "login-btn", text := "Login" }).stability = "High" :=
  (score_label_consistency (extract_interactable_elements loginDoc) _
    (css_entry_mem (by decide))).1

/-! ### C1: unique id gives the `#id` CSS candidate with score 10 -/

lemma str_eq_empty_iff (s : String) : s = "" ↔ s.data = [] := by
  constructor
  · intro h; subst h; rfl
  · intro h; cases s; simp_all

lemma strStarts_hash (s : String) : strStarts ("#" ++ s) "#" = true := by
  unfold strStarts
  rw [String.data_append]
  show listStarts ['#'] ('#' :: s.data) = true
  simp [listStarts]

lemma css_unique (e : ElementRecord) (ic : String → Nat) (hid : e.id ≠ "") (hu : ic e.id = 1) :
    _css_selector_for e ic =
      { selector := "#" ++ e.id, stability := "High", type := "CSS Selector" } := by
  unfold _css_selector_for
  rw [if_pos ⟨hid, hu⟩]

lemma score_unique_css (e : ElementRecord) (ic : String → Nat) (hid : e.id ≠ "") (hu : ic e.id = 1) :
    _compute_stability_score e "CSS Selector" ("#" ++ e.id) ic = 10 := by
  simp only [_compute_stability_score]
  rw [if_neg (show ¬(e.id = "" ∧ e.data = [] ∧ e.role = "" ∧ e.name = "" ∧ e.ariaLabel = "")
    from fun h => hid h.1)]
  rw [if_neg (show ¬(strContains (strToLower "CSS Selector") "text selector" = true) by decide)]
  rw [if_pos (show e.id ≠ "" ∧ ic e.id = 1 ∧ strToLower "CSS Selector" = "css selector" ∧
      strStarts ("#" ++ e.id) "#" = true from ⟨hid, hu, by decide, strStarts_hash e.id⟩)]
  decide

/-- C1: for every element whose id is unique in the document's id counts, the
CSS builder returns `#id` and the scorer gives that CSS candidate exactly 10
with label High; in particular the login-button document's CSS candidate is
`#login-btn` with score 10, label High. -/
theorem unique_id_css_candidate_scores_ten
    (elements : List ElementRecord) (e : ElementRecord) (he : e ∈ elements)
    (hid : e.id ≠ "") (hu : build_id_counts elements e.id = 1) :
    (css_entry elements e ∈ generate_locators_from_elements elements ∧
      (css_entry elements e).locator_type = "CSS Selector" ∧
      (css_entry elements e).locator_value = "#" ++ e.id ∧
      (css_entry elements e).stability_score = 10 ∧
      (css_entry elements e).stability = "High") ∧
    ∃ c ∈ generate_locators_from_elements (extract_interactable_elements loginDoc),
      c.locator_type = "CSS Selector" ∧ c.locator_value = "#login-btn" ∧
      c.stability_score = 10 ∧ c.stability = "High" := by
  have hinfo := css_unique e (build_id_counts elements) hid hu
  have hval : (css_entry elements e).locator_value = "#" ++ e.id := by
    show (_css_selector_for e (build_id_counts elements)).selector = "#" ++ e.id
    rw [hinfo]
  have htype : (css_entry elements e).locator_type = "CSS Selector" := by
    show (_css_selector_for e (build_id_counts elements)).type = "CSS Selector"
    rw [hinfo]
  have hscore : (css_entry elements e).stability_score = 10 := by
    show _compute_stability_score e (_css_selector_for e (build_id_counts elements)).type
        (_css_selector_for e (build_id_counts elements)).selector (build_id_counts elements) = 10
    rw [hinfo]
    exact score_unique_css e (build_id_counts elements) hid hu
  have hlabel : (css_entry elements e).stability = "High" := by
    show _label_from_score (_compute_stability_score e
        (_css_selector_for e (build_id_counts elements)).type
        (_css_selector_for e (build_id_counts elements)).selector (build_id_counts elements)) = "High"
    rw [hinfo, score_unique_css e (build_id_counts elements) hid hu]
    decide
  exact ⟨⟨css_entry_mem he, htype, hval, hscore, hlabel⟩, by decide⟩

/-- C1 witness: the theorem applied to the login-button document itself. -/
theorem unique_id_css_candidate_scores_ten_witness :
    (css_entry (extract_interactable_elements loginDoc)
        { tag := "button", id := "login-btn", text := "Login" }).locator_value = "#" ++ "login-btn" ∧
    (css_entry (extract_interactable_elements loginDoc)
        { tag := "button", id := "login-btn", text := "Login" }).stability_score = 10 :=
  ⟨(unique_id_css_candidate_scores_ten (extract_interactable_elements loginDoc) _
      (by decide) (by decide) (by decide)).1.2.2.1,
   (unique_id_css_candidate_scores_ten (extract_interactable_elements loginDoc) _
      (by decide) (by decide) (by decide)).1.2.2.2.1⟩

/-! ### C4: the text-matchable link scenario -/

/-- C4 counterexample: on the document `<a href="/contact">Contact Us</a>`,
no candidate with locator value `//a[text()='Contact Us']` has stability
score 6 — the element carries none of id/name/aria-label/role/data, so the
scorer's universal penalty lowers the exact-text XPath score from 6 to 5. -/
theorem contact_link_xpath_score_not_six :
    ¬ ∃ c, c ∈ generate_locators_from_elements (extract_interactable_elements contactDoc) ∧
      c.locator_value = "//a[text()='Contact Us']" ∧ c.stability_score = 6 := by decide

/-- C4 amended: the contact-link document yields the XPath candidate
`//a[text()='Contact Us']` with stability score exactly 5 (6 from the
exact-text rule, minus the universal missing-semantics penalty) and label
Medium. -/
theorem contact_link_xpath_scores_five :
    ∃ c ∈ generate_locators_from_elements (extract_interactable_elements contactDoc),
      c.locator_type = "XPath" ∧ c.locator_value = "//a[text()='Contact Us']" ∧
      c.stability_score = 5 ∧ c.stability = "Medium" := by decide

/-! ### C8: duplicate-id scenario -/

/-- C8 counterexample: `div` is not an interactable tag, so a document whose
only elements are two `<div id="card">` yields no extracted elements and the
pipeline emits no candidates at all — in particular no CSS candidate with a
duplicate-id warning exists for either div. -/
theorem two_divs_give_no_candidates :
    generate_locators_from_elements (extract_interactable_elements twoDivDoc) = [] := by decide

/-- C8 amended: for a document with two interactable elements (buttons)
sharing `id="card"`, every produced candidate avoids the `#card` CSS form,
is flagged duplicate, and carries the "Duplicate id detected" warning. -/
theorem duplicate_id_buttons_flagged :
    ∀ c ∈ generate_locators_from_elements (extract_interactable_elements twoButtonCardDoc),
      c.duplicate = true ∧ "Duplicate id detected" ∈ c.warnings ∧
      strStarts c.locator_value "#card" = false := by decide

/-- C8 amended witness: the first of the two buttons' CSS candidates. -/
theorem duplicate_id_buttons_flagged_witness :
    (css_entry (extract_interactable_elements twoButtonCardDoc)
        { tag := "button", id := "card", text := "Pay" }).duplicate = true ∧
    "Duplicate id detected" ∈ (css_entry (extract_interactable_elements twoButtonCardDoc)
        { tag := "button", id := "card", text := "Pay" }).warnings ∧
    strStarts (css_entry (extract_interactable_elements twoButtonCardDoc)
        { tag := "button", id := "card", text := "Pay" }).locator_value "#card" = false :=
  duplicate_id_buttons_flagged _ (by decide)

/-! ### C6 counterexample: `data-testid` is not recognized by the CSS builder -/

/-- An element carrying only a `data-testid` test attribute. -/
def testidOnlyButton : ElementRecord := { tag := "button", data := [("data-testid", "x")] }

/-- C6 counterexample: for an element with no id and a `data-testid`
attribute, the CSS builder does not return an attribute-equality selector at
all — only the literal key `data-test` is recognized, so the chain falls
through to the bare-tag rule (the scorer, by contrast, does accept
`data-testid`, and rates the resulting bare-tag selector 9). -/
theorem data_testid_css_falls_to_tag :
    (_css_selector_for testidOnlyButton (build_id_counts [testidOnlyButton])).selector = "button" ∧
    ¬ ((_css_selector_for testidOnlyButton (build_id_counts [testidOnlyButton])).selector =
        "[data-test='x']" ∨
      (_css_selector_for testidOnlyButton (build_id_counts [testidOnlyButton])).selector =
        "[data-testid='x']") ∧
    _compute_stability_score testidOnlyButton "CSS Selector" "button"
      (build_id_counts [testidOnlyButton]) = 9 := by decide

/-! ### C6 amended: `data-test` gives the attribute-equality selector, score 9 -/

lemma dataHas_ne_nil {d : List (String × String)} {k : String} (h : dataHas d k = true) :
    d ≠ [] := by
  intro hd
  rw [hd] at h
  simp [dataHas] at h

lemma css_datatest (e : ElementRecord) (ic : String → Nat)
    (hnu : ic e.id ≠ 1) (hdt : dataHas e.data "data-test" = true) :
    _css_selector_for e ic =
      { selector := "[data-test='" ++ escQuote (dataGet e.data "data-test") ++ "']",
        stability := "High", type := "CSS Selector" } := by
  unfold _css_selector_for
  rw [if_neg (fun h => hnu h.2), if_pos hdt]

lemma score_datatest_css (e : ElementRecord) (ic : String → Nat) (val : String)
    (hnu : ic e.id ≠ 1) (hdt : dataHas e.data "data-test" = true) :
    _compute_stability_score e "CSS Selector" val ic = 9 := by
  simp only [_compute_stability_score]
  rw [if_neg (fun h => dataHas_ne_nil hdt h.2.1)]
  rw [if_neg (show ¬(strContains (strToLower "CSS Selector") "text selector" = true) by decide)]
  rw [if_neg (show ¬(e.id ≠ "" ∧ ic e.id = 1 ∧ strToLower "CSS Selector" = "css selector" ∧
      strStarts val "#" = true) from fun h => hnu h.2.1)]
  rw [if_pos ⟨Or.inr (Or.inr hdt), by decide⟩]
  decide

/-- C6 amended: for every element whose id is not unique in the id counts and
that carries a `data-test` attribute (the one test-id attribute the CSS
builder recognizes), the builder returns the `[data-test='value']` selector
and the scorer gives that CSS candidate 9. -/
theorem data_test_css_selector_scores_nine
    (elements : List ElementRecord) (e : ElementRecord)
    (hnu : build_id_counts elements e.id ≠ 1)
    (hdt : dataHas e.data "data-test" = true) :
    (_css_selector_for e (build_id_counts elements)).selector =
      "[data-test='" ++ escQuote (dataGet e.data "data-test") ++ "']" ∧
    _compute_stability_score e "CSS Selector"
      (_css_selector_for e (build_id_counts elements)).selector
      (build_id_counts elements) = 9 := by
  rw [css_datatest e (build_id_counts elements) hnu hdt]
  exact ⟨rfl, score_datatest_css e (build_id_counts elements) _ hnu hdt⟩

/-- C6 amended witness: a button with only a `data-test` attribute. -/
theorem data_test_css_selector_scores_nine_witness :
    (_css_selector_for { tag := "button", data := [("data-test", "add-btn")] }
        (build_id_counts [{ tag := "button", data := [("data-test", "add-btn")] }])).selector =
      "[data-test='" ++ escQuote (dataGet [("data-test", "add-btn")] "data-test") ++ "']" ∧
    _compute_stability_score { tag := "button", data := [("data-test", "add-btn")] } "CSS Selector"
      (_css_selector_for { tag := "button", data := [("data-test", "add-btn")] }
        (build_id_counts [{ tag := "button", data := [("data-test", "add-btn")] }])).selector
      (build_id_counts [{ tag := "button", data := [("data-test", "add-btn")] }]) = 9 :=
  data_test_css_selector_scores_nine [{ tag := "button", data := [("data-test", "add-btn")] }] _
    (by decide) (by decide)

/-! ### C5: non-unique id falls through the CSS chain -/

lemma data_cons_of_append (s t : String) (c : Char) (r : List Char) (hs : s.data = c :: r) :
    (s ++ t).data = c :: (r ++ t.data) := by
  rw [String.data_append, hs]
  rfl

lemma strStarts_hash_false_of_head (s : String) (c : Char) (r : List Char)
    (hd : s.data = c :: r) (hc : c ≠ '#') : strStarts s "#" = false := by
  unfold strStarts
  rw [hd]
  show (('#' == c) && listStarts [] r) = false
  simp [listStarts]
  exact fun h => hc h.symm

lemma strStarts_hash_false_brk (a t b : String) (c : Char) (r : List Char)
    (ha : a.data = c :: r) (hc : c ≠ '#') : strStarts (a ++ t ++ b) "#" = false :=
  strStarts_hash_false_of_head _ c _
    (data_cons_of_append _ b c _ (data_cons_of_append a t c r ha)) hc

lemma css_fallthrough (e : ElementRecord) (ic : String → Nat)
    (hnu : ¬(e.id ≠ "" ∧ ic e.id = 1)) (htag : strStarts e.tag "#" = false) :
    strStarts (_css_selector_for e ic).selector "#" = false ∧
    ((_css_selector_for e ic).selector =
        "[data-test='" ++ escQuote (dataGet e.data "data-test") ++ "']" ∨
      (_css_selector_for e ic).selector =
        "[class*='" ++ escQuote (firstClassToken e.classAttr) ++ "']" ∨
      (_css_selector_for e ic).selector = e.tag ∨
      (_css_selector_for e ic).selector = "*") := by
  unfold _css_selector_for
  rw [if_neg hnu]
  split_ifs with h1 h2 h3
  · exact ⟨strStarts_hash_false_brk _ _ _ '[' _ rfl (by decide), Or.inl rfl⟩
  · exact ⟨strStarts_hash_false_brk _ _ _ '[' _ rfl (by decide), Or.inr (Or.inl rfl)⟩
  · exact ⟨htag, Or.inr (Or.inr (Or.inl rfl))⟩
  · exact ⟨by decide, Or.inr (Or.inr (Or.inr rfl))⟩

/-- C5: for every element whose id value is shared (its id count is at least
2), the pipeline's CSS candidate for it never uses the `#id` form — it falls
through to the `data-test`, class or bare-tag rule of the chain. -/
theorem duplicate_id_css_falls_through
    (elements : List ElementRecord) (e : ElementRecord) (he : e ∈ elements)
    (hdup : 2 ≤ build_id_counts elements e.id)
    (htag : strStarts e.tag "#" = false) :
    css_entry elements e ∈ generate_locators_from_elements elements ∧
    strStarts (css_entry elements e).locator_value "#" = false ∧
    ((css_entry elements e).locator_value =
        "[data-test='" ++ escQuote (dataGet e.data "data-test") ++ "']" ∨
      (css_entry elements e).locator_value =
        "[class*='" ++ escQuote (firstClassToken e.classAttr) ++ "']" ∨
      (css_entry elements e).locator_value = e.tag ∨
      (css_entry elements e).locator_value = "*") := by
  have h := css_fallthrough e (build_id_counts elements) (fun h => absurd h.2 (by omega)) htag
  exact ⟨css_entry_mem he, h.1, h.2⟩

/-- C5 witness: two buttons sharing `id="card"`. -/
theorem duplicate_id_css_falls_through_witness :
    strStarts (css_entry (extract_interactable_elements twoButtonCardDoc)
      { tag := "button", id := "card", text := "Pay" }).locator_value "#" = false :=
  (duplicate_id_css_falls_through (extract_interactable_elements twoButtonCardDoc)
    { tag := "button", id := "card", text := "Pay" } (by decide) (by decide) (by decide)).2.1

/-! ### C9: naming engine totality and suffix idempotence -/

lemma _name_suffix_ne (tag : String) : _name_suffix tag ≠ "" := by
  unfold _name_suffix
  split_ifs <;> decide

lemma strEnds_empty_left (s : String) (hs : s ≠ "") : strEnds "" s = false := by
  unfold strEnds
  cases hd : s.data.reverse with
  | nil =>
    exact absurd ((str_eq_empty_iff _).mpr (List.reverse_eq_nil_iff.mp hd)) hs
  | cons a l => rfl

lemma strAppend_ne_empty (a b : String) (hb : b ≠ "") : a ++ b ≠ "" := by
  intro h
  have h2 : (a ++ b).data = [] := by rw [h]
  rw [String.data_append, List.append_eq_nil] at h2
  exact hb ((str_eq_empty_iff _).mpr h2.2)

/-- C9: the naming engine always returns a non-empty name, and it never
appends the tag-specific suffix when the derived camel-case base already ends
with it; in particular a button with visible text "Submit Button" is named
"SubmitButton", not "SubmitButtonButton". -/
theorem naming_nonempty_no_doubled_suffix (elem : ElementRecord) :
    _guess_custom_name elem ≠ "" ∧
    (strEnds (_name_base elem) (_name_suffix elem.tag) = true →
      _guess_custom_name elem = _name_base elem) ∧
    _guess_custom_name { tag := "button", text := "Submit Button" } = "SubmitButton" := by
  have hconc : _guess_custom_name { tag := "button", text := "Submit Button" } = "SubmitButton" := by
    decide
  refine ⟨?_, ?_, hconc⟩
  · unfold _guess_custom_name
    split_ifs with h
    · intro hb
      rw [hb, strEnds_empty_left _ (_name_suffix_ne elem.tag)] at h
      cases h
    · exact strAppend_ne_empty _ _ (_name_suffix_ne _)
  · intro h
    unfold _guess_custom_name
    rw [if_pos h]

/-- C9 witness: the suffix-suppression branch taken on a concrete element. -/
theorem naming_nonempty_no_doubled_suffix_witness :
    _guess_custom_name ({ tag := "button", text := "Submit Button" } : ElementRecord) ≠ "" ∧
    _guess_custom_name ({ tag := "button", text := "Submit Button" } : ElementRecord) =
      _name_base { tag := "button", text := "Submit Button" } :=
  ⟨(naming_nonempty_no_doubled_suffix { tag := "button", text := "Submit Button" }).1,
   (naming_nonempty_no_doubled_suffix { tag := "button", text := "Submit Button" }).2.1 (by decide)⟩

/-! ### C3: positional-index XPath values score at most 2 -/

/-- The claim's positional-index pattern `//tag[N]`: the whole value is `//`,
one or more letters, `[`, one or more digits, `]`. -/
def posFull (l : List Char) : Bool := posConsume l == some []

/-- A locator value that is exactly of the positional-index form `//tag[N]`. -/
def isPositionalValue (v : String) : Bool := posFull v.data

lemma posMatchAt_of_posFull {l : List Char} (h : posFull l = true) : posMatchAt l = true := by
  unfold posFull at h
  unfold posMatchAt
  cases hc : posConsume l <;> simp_all

lemma posSearch_of_posFull {l : List Char} (h : posFull l = true) : posSearch l = true := by
  cases l with
  | nil => cases h
  | cons a t =>
    unfold posSearch
    rw [posMatchAt_of_posFull h]
    rfl

lemma posFull_cons_false (c : Char) (l : List Char) (hc : c ≠ '/') : posFull (c :: l) = false := by
  cases l with
  | nil => rfl
  | cons b r => simp [posFull, posConsume, hc]

/-- The score the pipeline gives an XPath-typed candidate whose value the
positional regex search hits is at most 2. -/
lemma xpath_score_le_two (e : ElementRecord) (ic : String → Nat) (val : String)
    (hps : posSearch val.data = true) :
    _compute_stability_score e "XPath" val ic ≤ 2 := by
  simp only [_compute_stability_score]
  rw [if_neg (show ¬(strContains (strToLower "XPath") "text selector" = true) by decide)]
  rw [if_neg (show ¬(e.id ≠ "" ∧ ic e.id = 1 ∧ strToLower "XPath" = "css selector" ∧
      strStarts val "#" = true) from
    fun h => (show ¬(strToLower "XPath" = "css selector") by decide) h.2.2.1)]
  rw [if_neg (show ¬((dataHas e.data "data-testid" = true ∨ dataHas e.data "data-testid" = true ∨
      dataHas e.data "data-test" = true) ∧ strToLower "XPath" = "css selector") from
    fun h => (show ¬(strToLower "XPath" = "css selector") by decide) h.2)]
  rw [if_neg (show ¬(strContains (strToLower "XPath") "role selector" = true ∧ e.role ≠ "" ∧
      pyStrip (if e.ariaLabel ≠ "" then e.ariaLabel else e.text) ≠ "") from
    fun h => (show ¬(strContains (strToLower "XPath") "role selector" = true) by decide) h.1)]
  rw [if_pos (show strToLower "XPath" = "xpath" by decide)]
  rw [if_pos hps]
  split_ifs <;> decide

lemma css_value_not_positional (e : ElementRecord) (ic : String → Nat)
    (htag : isPositionalValue e.tag = false) :
    isPositionalValue (_css_selector_for e ic).selector = false := by
  unfold _css_selector_for
  split_ifs with h1 h2 h3
  · show posFull ("#" ++ e.id).data = false
    rw [data_cons_of_append "#" e.id '#' [] rfl]
    exact posFull_cons_false _ _ (by decide)
  · show posFull ("[data-test='" ++ escQuote (dataGet e.data "data-test") ++ "']").data = false
    rw [data_cons_of_append _ "']" '[' _
      (data_cons_of_append "[data-test='" (escQuote (dataGet e.data "data-test")) '[' _ rfl)]
    exact posFull_cons_false _ _ (by decide)
  · show posFull ("[class*='" ++ escQuote (firstClassToken e.classAttr) ++ "']").data = false
    rw [data_cons_of_append _ "']" '[' _
      (data_cons_of_append "[class*='" (escQuote (firstClassToken e.classAttr)) '[' _ rfl)]
    exact posFull_cons_false _ _ (by decide)
  · exact htag
  · decide

lemma listStarts_append (pat l l' : List Char) (h : listStarts pat l = true) :
    listStarts pat (l ++ l') = true := by
  induction pat generalizing l with
  | nil => rfl
  | cons p ps ih =>
    cases l with
    | nil => cases h
    | cons c cs =>
      rw [listStarts, Bool.and_eq_true] at h
      obtain ⟨h1, h2⟩ := h
      rw [List.cons_append, listStarts, h1, ih cs h2]
      rfl

lemma strStarts_append_mono (s t pat : String) (h : strStarts s pat = true) :
    strStarts (s ++ t) pat = true := by
  unfold strStarts at h ⊢
  rw [String.data_append]
  exact listStarts_append _ _ _ h

lemma not_positional_of_page (s : String) (h : strStarts s "page.getBy" = true) :
    isPositionalValue s = false := by
  unfold strStarts at h
  cases hd : s.data with
  | nil =>
    rw [hd] at h
    exact absurd h (by decide)
  | cons c r =>
    rw [hd] at h
    have h2 : listStarts ('p' :: "age.getBy".data) (c :: r) = true := h
    rw [listStarts, Bool.and_eq_true] at h2
    have hc : c = 'p' := (eq_of_beq h2.1).symm
    show posFull s.data = false
    rw [hd]
    subst hc
    exact posFull_cons_false _ _ (by decide)

lemma pw_selector_page {e : ElementRecord} {info : SelectorInfo}
    (hpw : _playwright_role_selector_for e = some info) :
    strStarts info.selector "page.getBy" = true := by
  simp only [_playwright_role_selector_for] at hpw
  split_ifs at hpw <;>
    first
    | (injection hpw with hinfo
       subst hinfo
       exact strStarts_append_mono _ _ _ (strStarts_append_mono _ _ _
         (strStarts_append_mono _ _ _ (strStarts_append_mono _ _ _ (by decide)))))
    | (injection hpw with hinfo
       subst hinfo
       exact strStarts_append_mono _ _ _ (strStarts_append_mono _ _ _ (by decide)))

lemma pw_value_not_positional {e : ElementRecord} {info : SelectorInfo}
    (hpw : _playwright_role_selector_for e = some info) :
    isPositionalValue info.selector = false :=
  not_positional_of_page _ (pw_selector_page hpw)

lemma css_type (e : ElementRecord) (ic : String → Nat) :
    (_css_selector_for e ic).type = "CSS Selector" := by
  unfold _css_selector_for
  split_ifs <;> rfl

lemma xpath_type (e : ElementRecord) (l : List ElementRecord) :
    (_xpath_selector_for e l).type = "XPath" := by
  simp only [_xpath_selector_for]
  split_ifs <;> rfl

lemma extract_tag_mem {doc : List HtmlNode} {e : ElementRecord}
    (he : e ∈ extract_interactable_elements doc) : e.tag ∈ INTERACTABLE_TAGS := by
  unfold extract_interactable_elements at he
  rw [List.mem_flatten] at he
  obtain ⟨lst, hlst, hel⟩ := he
  rw [List.mem_map] at hlst
  obtain ⟨t, ht, rfl⟩ := hlst
  rw [List.mem_map] at hel
  obtain ⟨el, hel2, rfl⟩ := hel
  rw [List.mem_filter] at hel2
  show el.tag ∈ INTERACTABLE_TAGS
  rw [eq_of_beq hel2.2]
  exact ht

lemma tag_not_positional {e : ElementRecord} (h : e.tag ∈ INTERACTABLE_TAGS) :
    isPositionalValue e.tag = false := by
  simp only [INTERACTABLE_TAGS, List.mem_cons, List.not_mem_nil, or_false] at h
  rcases h with h | h | h | h | h <;> rw [h] <;> decide

/-- Every candidate the pipeline can build for elements whose tags are not
themselves positional-shaped scores at most 2 whenever its locator value
matches `//tag[N]`. -/
lemma positional_le_two_general (elements : List ElementRecord)
    (htags : ∀ e ∈ elements, isPositionalValue e.tag = false)
    (c : LocatorEntry) (hc : c ∈ generate_locators_from_elements elements)
    (hv : isPositionalValue c.locator_value = true) : c.stability_score ≤ 2 := by
  rcases mem_generate_iff.mp hc with ⟨e, he, hmem⟩
  rcases entries_cases hmem with rfl | rfl | ⟨info, hpw, rfl⟩
  · exfalso
    have hfalse : isPositionalValue (css_entry elements e).locator_value = false :=
      css_value_not_positional e (build_id_counts elements) (htags e he)
    rw [hv] at hfalse
    cases hfalse
  · have hval : (xpath_entry elements e).locator_value =
        (_xpath_selector_for e elements).selector := rfl
    have hscore : (xpath_entry elements e).stability_score =
        _compute_stability_score e (_xpath_selector_for e elements).type
          (_xpath_selector_for e elements).selector (build_id_counts elements) := rfl
    rw [hscore, xpath_type]
    exact xpath_score_le_two e (build_id_counts elements) _
      (posSearch_of_posFull (by rw [hval] at hv; exact hv))
  · exfalso
    have hfalse : isPositionalValue (pw_entry elements e info).locator_value = false :=
      pw_value_not_positional hpw
    rw [hv] at hfalse
    cases hfalse

/-- C3: every candidate the pipeline produces from an extracted document
whose locator value matches the positional-index XPath pattern `//tag[N]`
(N numeric) has stability score at most 2, regardless of any other signal. -/
theorem positional_xpath_scores_at_most_two (doc : List HtmlNode) (c : LocatorEntry)
    (hc : c ∈ generate_locators_from_elements (extract_interactable_elements doc))
    (hv : isPositionalValue c.locator_value = true) :
    c.stability_score ≤ 2 :=
  positional_le_two_general _ (fun _ he => tag_not_positional (extract_tag_mem he)) c hc hv

/-- A one-button document whose button has no text, so its XPath candidate is
the positional `//button[1]`. -/
def plainButtonDoc : List HtmlNode := [{ tag := "button", attrs := [("class", "btn")] }]

/-- C3 witness: the positional XPath candidate of the plain button. -/
theorem positional_xpath_scores_at_most_two_witness :
    isPositionalValue (xpath_entry (extract_interactable_elements plainButtonDoc)
      { tag := "button", classAttr := "btn" }).locator_value = true ∧
    (xpath_entry (extract_interactable_elements plainButtonDoc)
      { tag := "button", classAttr := "btn" }).stability_score ≤ 2 :=
  ⟨by decide,
   positional_xpath_scores_at_most_two plainButtonDoc _ (by decide) (by decide)⟩

/-! ### C10: role/text builder on links and buttons with text -/

/-- An anchor whose explicit `role` attribute overrides the tag-inferred
role. -/
def roleOverrideLink : ElementRecord := { tag := "a", text := "Hi", role := "button" }

/-- C10 counterexample: for an `a` element with non-empty text and no
aria-label but an explicit `role="button"` attribute, the role builder emits
the explicit role, not the tag-inferred role `link` — no candidate of the
pipeline carries the `link`-role selector for it. -/
theorem role_attribute_overrides_inferred_role :
    _playwright_role_selector_for roleOverrideLink =
      some { selector := "page.getByRole('button', \x7b name: 'Hi' \x7d)",
             stability := "High", type := "Role Selector" } ∧
    ¬ ∃ c, c ∈ generate_locators_from_elements [roleOverrideLink] ∧
        c.locator_value = "page.getByRole('link', \x7b name: 'Hi' \x7d)" := by decide

lemma pw_role_selector (e : ElementRecord) (htag : e.tag = "a" ∨ e.tag = "button")
    (htext : pyStrip e.text ≠ "") (haria : e.ariaLabel = "") (hrole : e.role = "") :
    _playwright_role_selector_for e =
      some { selector := "page.getByRole('" ++ (if e.tag = "a" then "link" else "button") ++
               "', \x7b name: '" ++ escQuote (pyStrip e.text) ++ "' \x7d)",
             stability := "High", type := "Role Selector" } := by
  simp only [_playwright_role_selector_for]
  rw [if_neg (show ¬(e.role ≠ "") from fun hh => hh hrole)]
  rw [if_neg (show ¬(e.ariaLabel ≠ "") from fun hh => hh haria)]
  rcases htag with h | h
  · rw [if_pos h]
    rw [if_pos (show ("link" ≠ "" ∧ pyStrip e.text ≠ "") from ⟨by decide, htext⟩)]
    rw [if_pos h]
  · have hne : ¬(e.tag = "a") := fun hh => by rw [h] at hh; exact absurd hh (by decide)
    rw [if_neg hne, if_pos h]
    rw [if_pos (show ("button" ≠ "" ∧ pyStrip e.text ≠ "") from ⟨by decide, htext⟩)]
    rw [if_neg hne]

/-- C10 amended: for every element record with tag `a` or `button`, non-empty
stripped text, no aria-label and no explicit role attribute, the role/text
builder emits the role selector (role `link` for `a`, `button` for `button`,
accessible name the visible text) — never the `getByText` fallback — and the
pipeline builds exactly three candidates for such an element: CSS, XPath and
Role. -/
theorem role_selector_for_text_links_buttons
    (elements : List ElementRecord) (e : ElementRecord)
    (htag : e.tag = "a" ∨ e.tag = "button") (htext : pyStrip e.text ≠ "")
    (haria : e.ariaLabel = "") (hrole : e.role = "") :
    _playwright_role_selector_for e =
      some { selector := "page.getByRole('" ++ (if e.tag = "a" then "link" else "button") ++
               "', \x7b name: '" ++ escQuote (pyStrip e.text) ++ "' \x7d)",
             stability := "High", type := "Role Selector" } ∧
    (locator_entries_for elements e).length = 3 ∧
    (locator_entries_for elements e).map (fun c => c.locator_type) =
      ["CSS Selector", "XPath", "Role Selector"] := by
  have hpw := pw_role_selector e htag htext haria hrole
  refine ⟨hpw, ?_, ?_⟩
  · unfold locator_entries_for
    rw [hpw]
    rfl
  · unfold locator_entries_for
    rw [hpw]
    show [(css_entry elements e).locator_type, (xpath_entry elements e).locator_type,
      (pw_entry elements e _).locator_type] = _
    rw [show (css_entry elements e).locator_type =
        (_css_selector_for e (build_id_counts elements)).type from rfl, css_type]
    rw [show (xpath_entry elements e).locator_type =
        (_xpath_selector_for e elements).type from rfl, xpath_type]
    rfl

/-- C10 amended witness: a link with text "Go Home". -/
theorem role_selector_for_text_links_buttons_witness :
    (locator_entries_for [({ tag := "a", text := "Go Home" } : ElementRecord)]
      { tag := "a", text := "Go Home" }).map (fun c => c.locator_type) =
      ["CSS Selector", "XPath", "Role Selector"] :=
  (role_selector_for_text_links_buttons [{ tag := "a", text := "Go Home" }]
    { tag := "a", text := "Go Home" } (by decide) (by decide) (by decide) (by decide)).2.2

/-! ### C7: best-per-name winner selection -/

lemma alistLookup_none_iff (l : List (String × LocatorEntry)) (k : String) :
    alistLookup l k = none ↔ k ∉ l.map Prod.fst := by
  induction l with
  | nil => simp [alistLookup]
  | cons p t ih =>
    rw [alistLookup]
    split_ifs with h
    · simp [← h]
    · rw [ih, List.map_cons, List.mem_cons]
      constructor
      · intro hk hor
        rcases hor with hk2 | hk2
        · exact h hk2.symm
        · exact hk hk2
      · intro hk hk2
        exact hk (Or.inr hk2)

lemma alistLookup_some_mem {l : List (String × LocatorEntry)} {k : String} {v : LocatorEntry}
    (h : alistLookup l k = some v) : (k, v) ∈ l := by
  induction l with
  | nil => cases h
  | cons p t ih =>
    rw [alistLookup] at h
    split_ifs at h with hk
    · injection h with hv
      rw [List.mem_cons]
      left
      rw [← hk, ← hv]

    · exact List.mem_cons_of_mem _ (ih h)

lemma alistUpdate_keys (l : List (String × LocatorEntry)) (k : String) (v : LocatorEntry) :
    (alistUpdate l k v).map Prod.fst = l.map Prod.fst := by
  unfold alistUpdate
  rw [List.map_map]
  refine List.map_congr_left ?_
  intro p _
  show Prod.fst (if p.1 = k then (p.1, v) else p) = p.1
  split_ifs <;> rfl

lemma mem_alistUpdate {l : List (String × LocatorEntry)} {k : String} {v : LocatorEntry}
    {q : String × LocatorEntry} (h : q ∈ alistUpdate l k v) :
    (q ∈ l ∧ q.1 ≠ k) ∨ (q.1 = k ∧ q.2 = v) := by
  unfold alistUpdate at h
  rw [List.mem_map] at h
  obtain ⟨p, hp, hq⟩ := h
  split_ifs at hq with hk
  · right
    subst hq
    exact ⟨hk, rfl⟩
  · left
    subst hq
    exact ⟨hp, hk⟩

lemma alistUpdate_mem_self {l : List (String × LocatorEntry)} {k : String} {v : LocatorEntry}
    (h : k ∈ l.map Prod.fst) : (k, v) ∈ alistUpdate l k v := by
  rw [List.mem_map] at h
  obtain ⟨p, hp, hk⟩ := h
  unfold alistUpdate
  rw [List.mem_map]
  refine ⟨p, hp, ?_⟩
  rw [if_pos hk, hk]

lemma mem_alistUpdate_of_ne {l : List (String × LocatorEntry)} {k : String} {v : LocatorEntry}
    {q : String × LocatorEntry} (hq : q ∈ l) (hne : q.1 ≠ k) : q ∈ alistUpdate l k v := by
  unfold alistUpdate
  rw [List.mem_map]
  exact ⟨q, hq, by rw [if_neg hne]⟩

lemma keys_nodup_unique {l : List (String × LocatorEntry)} (hnd : (l.map Prod.fst).Nodup)
    {k : String} {a b : LocatorEntry} (ha : (k, a) ∈ l) (hb : (k, b) ∈ l) : a = b := by
  induction l with
  | nil => cases ha
  | cons p t ih =>
    rw [List.map_cons, List.nodup_cons] at hnd
    rw [List.mem_cons] at ha hb
    rcases ha with ha | ha <;> rcases hb with hb | hb
    · rw [← ha] at hb
      injection hb with _ h2
      exact h2.symm
    · exfalso
      apply hnd.1
      rw [List.mem_map]
      exact ⟨(k, b), hb, by rw [← ha]⟩
    · exfalso
      apply hnd.1
      rw [List.mem_map]
      exact ⟨(k, a), ha, by rw [← hb]⟩
    · exact ih hnd.2 ha hb

/-- Loop invariant of `_select_best_per_name`: keys are unique; every stored
winner is a compatible processed candidate stored under its name; and every
compatible processed candidate is dominated by the winner stored under its
name (strictly more stable, or equally stable with a type preference at
least as good). -/
def BestInv (framework : String) (seen : List LocatorEntry)
    (best : List (String × LocatorEntry)) : Prop :=
  (best.map Prod.fst).Nodup ∧
  (∀ n c, (n, c) ∈ best → c ∈ seen ∧ entry_name c = n ∧ compatible framework c = true) ∧
  (∀ l ∈ seen, compatible framework l = true →
    ∃ c, (entry_name l, c) ∈ best ∧ l.stability_score ≤ c.stability_score ∧
      (l.stability_score = c.stability_score →
        _prefer_order framework c.locator_type ≤ _prefer_order framework l.locator_type))

lemma best_inv_init (framework : String) : BestInv framework [] [] := by
  refine ⟨List.nodup_nil, ?_, ?_⟩
  · intro n c hc
    cases hc
  · intro l hl
    cases hl

/-- Replacing the stored winner for `loc`'s name by `loc` preserves the
invariant, provided `loc` dominates the winner it replaces. -/
lemma best_update_inv {fw : String} {seen : List LocatorEntry}
    {best : List (String × LocatorEntry)} {loc curr : LocatorEntry}
    (hnd : (best.map Prod.fst).Nodup)
    (hmem : ∀ n c, (n, c) ∈ best → c ∈ seen ∧ entry_name c = n ∧ compatible fw c = true)
    (hbound : ∀ l ∈ seen, compatible fw l = true →
      ∃ c, (entry_name l, c) ∈ best ∧ l.stability_score ≤ c.stability_score ∧
        (l.stability_score = c.stability_score →
          _prefer_order fw c.locator_type ≤ _prefer_order fw l.locator_type))
    (hct : compatible fw loc = true)
    (hcmem : (entry_name loc, curr) ∈ best)
    (hdom : curr.stability_score ≤ loc.stability_score)
    (hdom2 : curr.stability_score = loc.stability_score →
      _prefer_order fw loc.locator_type ≤ _prefer_order fw curr.locator_type) :
    BestInv fw (seen ++ [loc]) (alistUpdate best (entry_name loc) loc) := by
  have hkeys : entry_name loc ∈ best.map Prod.fst := by
    rw [List.mem_map]
    exact ⟨(entry_name loc, curr), hcmem, rfl⟩
  refine ⟨?_, ?_, ?_⟩
  · rw [alistUpdate_keys]
    exact hnd
  · intro n c hc
    rcases mem_alistUpdate hc with ⟨hc1, _⟩ | ⟨hc1, hc2⟩
    · obtain ⟨h1, h2, h3⟩ := hmem n c hc1
      exact ⟨List.mem_append_left _ h1, h2, h3⟩
    · have hc1' : n = entry_name loc := hc1
      have hc2' : c = loc := hc2
      subst hc1'
      subst hc2'
      exact ⟨List.mem_append_right _ (List.mem_singleton_self _), rfl, hct⟩
  · intro l hl hcl
    rcases List.mem_append.mp hl with hl | hl
    · obtain ⟨c, hc1, hc2, hc3⟩ := hbound l hl hcl
      by_cases hne : entry_name l = entry_name loc
      · have hcc : c = curr := keys_nodup_unique hnd (hne ▸ hc1) hcmem
        subst hcc
        refine ⟨loc, ?_, by omega, ?_⟩
        · rw [hne]
          exact alistUpdate_mem_self hkeys
        · intro heq
          have h1 : l.stability_score = c.stability_score := by omega
          have h2 : c.stability_score = loc.stability_score := by omega
          exact le_trans (hdom2 h2) (hc3 h1)
      · exact ⟨c, mem_alistUpdate_of_ne hc1 hne, hc2, hc3⟩
    · rw [List.mem_singleton] at hl
      subst hl
      exact ⟨l, alistUpdate_mem_self hkeys, le_refl _, fun _ => le_refl _⟩

lemma best_step_inv {fw : String} {seen : List LocatorEntry}
    {best : List (String × LocatorEntry)} {loc : LocatorEntry}
    (h : BestInv fw seen best) : BestInv fw (seen ++ [loc]) (best_step fw best loc) := by
  obtain ⟨hnd, hmem, hbound⟩ := h
  unfold best_step
  split_ifs with hcompat
  · -- filtered out by the framework guard
    refine ⟨hnd, ?_, ?_⟩
    · intro n c hc
      obtain ⟨h1, h2, h3⟩ := hmem n c hc
      exact ⟨List.mem_append_left _ h1, h2, h3⟩
    · intro l hl hcl
      rcases List.mem_append.mp hl with hl | hl
      · obtain ⟨c, hc1, hc2, hc3⟩ := hbound l hl hcl
        exact ⟨c, hc1, hc2, hc3⟩
      · rw [List.mem_singleton] at hl
        subst hl
        rw [hcl] at hcompat
        exact Bool.noConfusion hcompat
  · have hct : compatible fw loc = true := by
      rcases Bool.eq_false_or_eq_true (compatible fw loc) with h' | h'
      · exact h'
      · exact absurd h' hcompat
    cases hlk : alistLookup best (entry_name loc) with
    | none =>
      show BestInv fw (seen ++ [loc]) (best ++ [(entry_name loc, loc)])
      have hnotin : entry_name loc ∉ best.map Prod.fst := (alistLookup_none_iff _ _).mp hlk
      refine ⟨?_, ?_, ?_⟩
      · rw [List.map_append, List.nodup_append]
        refine ⟨hnd, List.nodup_singleton _, ?_⟩
        intro a ha hb
        rw [show (([(entry_name loc, loc)]).map Prod.fst) = [entry_name loc] from rfl,
          List.mem_singleton] at hb
        subst hb
        exact hnotin ha
      · intro n c hc
        rcases List.mem_append.mp hc with hc | hc
        · obtain ⟨h1, h2, h3⟩ := hmem n c hc
          exact ⟨List.mem_append_left _ h1, h2, h3⟩
        · rw [List.mem_singleton] at hc
          injection hc with hc1 hc2
          subst hc1
          subst hc2
          exact ⟨List.mem_append_right _ (List.mem_singleton_self _), rfl, hct⟩
      · intro l hl hcl
        rcases List.mem_append.mp hl with hl | hl
        · obtain ⟨c, hc1, hc2, hc3⟩ := hbound l hl hcl
          exact ⟨c, List.mem_append_left _ hc1, hc2, hc3⟩
        · rw [List.mem_singleton] at hl
          subst hl
          exact ⟨l, List.mem_append_right _ (List.mem_singleton_self _), le_refl _,
            fun _ => le_refl _⟩
    | some curr =>
      show BestInv fw (seen ++ [loc])
        (if curr.stability_score < loc.stability_score then
          alistUpdate best (entry_name loc) loc
        else if loc.stability_score = curr.stability_score ∧
            _prefer_order fw loc.locator_type < _prefer_order fw curr.locator_type then
          alistUpdate best (entry_name loc) loc
        else best)
      have hcmem : (entry_name loc, curr) ∈ best := alistLookup_some_mem hlk
      split_ifs with hgt hts
      · exact best_update_inv hnd hmem hbound hct hcmem hgt.le
          (fun h2 => absurd h2 (Nat.ne_of_lt hgt))
      · exact best_update_inv hnd hmem hbound hct hcmem hts.1.symm.le
          (fun _ => hts.2.le)
      · refine ⟨hnd, ?_, ?_⟩
        · intro n c hc
          obtain ⟨h1, h2, h3⟩ := hmem n c hc
          exact ⟨List.mem_append_left _ h1, h2, h3⟩
        · intro l hl hcl
          rcases List.mem_append.mp hl with hl | hl
          · obtain ⟨c, hc1, hc2, hc3⟩ := hbound l hl hcl
            exact ⟨c, hc1, hc2, hc3⟩
          · rw [List.mem_singleton] at hl
            subst hl
            refine ⟨curr, hcmem, Nat.le_of_not_lt hgt, ?_⟩
            intro heq
            by_contra hlt
            exact hts ⟨heq, Nat.lt_of_not_le hlt⟩

lemma best_fold_inv (fw : String) (ls : List LocatorEntry) :
    ∀ (seen : List LocatorEntry) (best : List (String × LocatorEntry)),
      BestInv fw seen best → BestInv fw (seen ++ ls) (ls.foldl (best_step fw) best) := by
  induction ls with
  | nil =>
    intro seen best h
    simpa using h
  | cons a t ih =>
    intro seen best h
    have h2 := @best_step_inv fw seen best a h
    have h3 := ih (seen ++ [a]) _ h2
    rw [List.append_assoc, List.singleton_append] at h3
    exact h3

/-- C7: for either target framework, best-per-name selection returns at most
one winner per element name (the key list of the resulting mapping has no
duplicates); every winner is a framework-compatible input candidate stored
under its own name whose stability score is maximal among the compatible
candidates sharing that name, with score ties broken by the framework's type
preference order; and a name with no compatible candidate is absent from the
result. -/
theorem select_best_per_name_spec (locators : List LocatorEntry) (framework : String)
    (hfw : framework = "playwright" ∨ framework = "selenium") :
    ((_select_best_per_name locators framework).map Prod.fst).Nodup ∧
    (∀ n c, (n, c) ∈ _select_best_per_name locators framework →
      c ∈ locators ∧ entry_name c = n ∧ compatible framework c = true ∧
      ∀ l ∈ locators, compatible framework l = true → entry_name l = n →
        l.stability_score ≤ c.stability_score ∧
        (l.stability_score = c.stability_score →
          _prefer_order framework c.locator_type ≤ _prefer_order framework l.locator_type)) ∧
    (∀ n : String, (∀ l ∈ locators, compatible framework l = true → entry_name l ≠ n) →
      alistLookup (_select_best_per_name locators framework) n = none) := by
  have hinv := best_fold_inv framework locators [] [] (best_inv_init framework)
  rw [List.nil_append] at hinv
  obtain ⟨hnd, hmem, hbound⟩ := hinv
  refine ⟨hnd, ?_, ?_⟩
  · intro n c hc
    obtain ⟨h1, h2, h3⟩ := hmem n c hc
    refine ⟨h1, h2, h3, ?_⟩
    intro l hl hcl hname
    obtain ⟨c', hc', hle, hpref⟩ := hbound l hl hcl
    rw [hname] at hc'
    have hcc : c' = c := keys_nodup_unique hnd hc' hc
    subst hcc
    exact ⟨hle, hpref⟩
  · intro n hn
    cases hlk : alistLookup (_select_best_per_name locators framework) n with
    | none => rfl
    | some v =>
      have hv := alistLookup_some_mem hlk
      obtain ⟨h1, h2, h3⟩ := hmem n v hv
      exact absurd h2 (hn v h1 h3)

/-- A CSS candidate as would appear in exported locator JSON. -/
def cssBestCand : LocatorEntry :=
  { custom_name := "LoginButton", locator_type := "CSS Selector", locator_value := "#login-btn",
    stability := "High", automation_tool := "Both", dynamic := false, duplicate := false,
    warnings := [], stability_score := 9, code := [] }

/-- An XPath candidate for the same element name. -/
def xpathBestCand : LocatorEntry :=
  { custom_name := "LoginButton", locator_type := "XPath", locator_value := "//button[1]",
    stability := "Medium", automation_tool := "Selenium", dynamic := false, duplicate := false,
    warnings := [], stability_score := 6, code := [] }

/-- C7 witness: for Selenium, the CSS candidate (score 9) beats the XPath
candidate (score 6) for the shared name, and the winner mapping has unique
keys. -/
theorem select_best_per_name_spec_witness :
    ((_select_best_per_name [cssBestCand, xpathBestCand] "selenium").map Prod.fst).Nodup ∧
    alistLookup (_select_best_per_name [cssBestCand, xpathBestCand] "selenium") "LoginButton" =
      some cssBestCand :=
  ⟨(select_best_per_name_spec [cssBestCand, xpathBestCand] "selenium" (Or.inr rfl)).1,
   by decide⟩

end Phoenix
